import Mathlib

/-!
Shallow embedding of the financial state-locking and audit subsystem of the
CJA-OPS backend (src/api/index.js).  Database tables are modelled as lists of
rows; each Express handler becomes a pure function from the database state and
the request to a response paired with the new database state.  The supabase
audit insert may fail at the store; that outcome is threaded through as the
`insertOk : Bool` argument of `auditLog`, mirroring the try/catch that swallows
the error in the source.  JavaScript `x || d` falsiness coercions on strings
are modelled by `jsOrStr`; on integers `x || 0` is the identity (0 maps to 0)
and is written as a plain field copy.
-/

namespace CJA

/-- JavaScript `s || d` for strings: the empty string is falsy. -/
def jsOrStr (s d : String) : String := if s = "" then d else s

/-- Row of the `deals` table (src/supabase_migration.sql, columns used by the API). -/
structure Deal where
  id : String
  name : String
  client : String
  value : Int
  expenses : Int
  stage : String
  owner : String
  close_date : Option String
  invoice_status : String
  amount_collected : Int
  buckets : List Int
  prob : Int
deriving Repr, DecidableEq

/-- Row of the `projects` table. -/
structure Project where
  id : String
  name : String
  client : String
  deal_id : Option String
  start_date : Option String
  end_date : Option String
  status : String
  archived : Bool
deriving Repr, DecidableEq

/-- Row of the `tasks` table. -/
structure Task where
  id : String
  title : String
  project_id : Option String
  assignee_id : Option String
  due_date : Option String
  priority : String
  status : String
  est_hours : Int
deriving Repr, DecidableEq

/-- Row of the `team_members` table. -/
structure TeamMember where
  id : String
  name : String
  role : String
  auth_role : String
  color : String
  profit_share_pct : Int
  active : Bool
  pin_hash : String
deriving Repr, DecidableEq

/-- Row of the `profit_share_status` table. -/
structure PSRow where
  quarter_key : String
  member_id : String
  paid : Bool
deriving Repr, DecidableEq

/-- Row of the `pay_log` table (columns used by the delete endpoint). -/
structure PayLogEntry where
  id : String
  member_id : String
  member_name : Option String
  pay_type : String
  amount : Int
  is_manual : Bool
deriving Repr, DecidableEq

/-- A diffable field value, standing in for `JSON.stringify` comparison. -/
inductive FieldVal where
  | str (v : String)
  | int (v : Int)
  | ostr (v : Option String)
  | ilist (v : List Int)
deriving Repr, DecidableEq

/-- The structured `changes` payload of an audit row, one constructor per
call site of `auditLog` that the embedded handlers reach.  In
`deletePayLogCh`, the outer `Option` is JS `undefined` (key absent from the
JSON object) and the inner one is SQL/JSON `null`. -/
inductive AuditChanges where
  | blockedPaidDeal (attempted : List String) (reason : String)
  | editDeal (diffs : List (String × FieldVal × FieldVal))
  | blockedTaskHours (attemptedHours : Int) (reason : String)
  | blockedPsPct (fromPct toPct : Int) (reason : String)
  | editTeamPs (name : String) (fromPct toPct : Int)
  | deletePayLogCh (member : Option (Option String)) (amount : Option Int)
deriving Repr, DecidableEq

/-- Row of the `audit_log` table. -/
structure AuditEntry where
  actor_id : Option String
  actor_name : String
  action : String
  table_name : String
  record_id : String
  changes : AuditChanges
deriving Repr, DecidableEq

/-- The decoded JWT payload attached as `req.user` (src/lib/auth.js signToken).
Empty strings model JS falsy field values of a partially populated actor. -/
structure Actor where
  sub : String
  name : String
  role : String
deriving Repr, DecidableEq

/-- The whole database state. -/
structure DB where
  deals : List Deal
  projects : List Project
  tasks : List Task
  team : List TeamMember
  psStatus : List PSRow
  payLog : List PayLogEntry
  audit : List AuditEntry
deriving Repr, DecidableEq

/-- Frontend-facing deal object (mapDeal in the source). -/
structure FrontDeal where
  id : String
  name : String
  client : String
  value : Int
  expenses : Int
  stage : String
  owner : String
  closeDate : Option String
  invoiceStatus : String
  amountCollected : Int
  buckets : List Int
  prob : Int
deriving Repr, DecidableEq

/-- Frontend-facing task object (mapTask). -/
structure FrontTask where
  id : String
  title : String
  projectId : Option String
  assigneeId : Option String
  due : Option String
  priority : String
  status : String
  estHours : Int
deriving Repr, DecidableEq

/-- Frontend-facing team member object (mapTeamMember). -/
structure FrontMember where
  id : String
  name : String
  role : String
  color : String
  profitSharePct : Int
  active : Bool
  authRole : String
deriving Repr, DecidableEq

/-- JSON body of a handler response. -/
inductive Body where
  | dealJ (d : FrontDeal)
  | taskJ (t : FrontTask)
  | memberJ (m : FrontMember)
  | ok
  | err (msg : String)
deriving Repr, DecidableEq

/-- An HTTP response: status code plus JSON body. -/
structure Resp where
  status : Nat
  body : Body
deriving Repr, DecidableEq

/-- mapDeal: DB row to frontend object; `expenses` is always 0 (computed
client-side), `invoice_status || 'none'`, numeric `|| 0` is the identity. -/
def mapDeal (d : Deal) : FrontDeal :=
  { id := d.id, name := d.name, client := d.client, value := d.value,
    expenses := 0, stage := d.stage, owner := d.owner,
    closeDate := d.close_date,
    invoiceStatus := jsOrStr d.invoice_status "none",
    amountCollected := d.amount_collected,
    buckets := d.buckets, prob := d.prob }

/-- mapTask: DB row to frontend object. -/
def mapTask (t : Task) : FrontTask :=
  { id := t.id, title := t.title, projectId := t.project_id,
    assigneeId := t.assignee_id, due := t.due_date,
    priority := t.priority, status := t.status, estHours := t.est_hours }

/-- mapTeamMember: DB row to frontend object. -/
def mapTeamMember (m : TeamMember) : FrontMember :=
  { id := m.id, name := m.name, role := m.role, color := m.color,
    profitSharePct := m.profit_share_pct, active := m.active,
    authRole := m.auth_role }

/-- Audit row construction inside auditLog: `actor?.sub || null` and
`actor?.name || 'unknown'` (a missing actor or a falsy field falls back). -/
def mkAuditEntry (actor : Option Actor) (action tableName recordId : String)
    (changes : AuditChanges) : AuditEntry :=
  { actor_id := match actor with
      | some a => if a.sub = "" then none else some a.sub
      | none => none,
    actor_name := match actor with
      | some a => if a.name = "" then "unknown" else a.name
      | none => "unknown",
    action := action, table_name := tableName,
    record_id := recordId, changes := changes }

/-- auditLog: best-effort insert into audit_log.  `insertOk` is the outcome of
the supabase insert; on failure the catch block only logs a warning, so the
log is left unchanged and no error escapes in either case. -/
def auditLog (insertOk : Bool) (log : List AuditEntry) (actor : Option Actor)
    (action tableName recordId : String) (changes : AuditChanges) : List AuditEntry :=
  if insertOk then log ++ [mkAuditEntry actor action tableName recordId changes]
  else log

/-- `.from('deals').select(...).eq('id', id).single()` - first row with this id. -/
def findDeal (db : DB) (id : String) : Option Deal :=
  db.deals.find? fun d => decide (d.id = id)

/-- Project lookup by id. -/
def findProject (db : DB) (id : String) : Option Project :=
  db.projects.find? fun p => decide (p.id = id)

/-- Task lookup by id. -/
def findTask (db : DB) (id : String) : Option Task :=
  db.tasks.find? fun t => decide (t.id = id)

/-- Team member lookup by id. -/
def findMember (db : DB) (id : String) : Option TeamMember :=
  db.team.find? fun m => decide (m.id = id)

/-- Pay log entry lookup by id. -/
def findPayLog (db : DB) (id : String) : Option PayLogEntry :=
  db.payLog.find? fun e => decide (e.id = id)

/-- getLockedDeal: returns the deal if it is locked (invoice_status = paid), else none. -/
def getLockedDeal (db : DB) (dealId : String) : Option Deal :=
  match findDeal db dealId with
  | some d => if d.invoice_status = "paid" then some d else none
  | none => none

/-- isProfitSharePaid: true if any profit_share_status row for this member has paid = true. -/
def isProfitSharePaid (db : DB) (memberId : String) : Bool :=
  db.psStatus.any fun r => decide (r.member_id = memberId) && r.paid

/-- The FINANCIAL_FIELDS constant of the deal PATCH handler. -/
def FINANCIAL_FIELDS : List String := ["value", "buckets", "prob"]

/-- PATCH /api/deals/:id request body (camelCase JSON; absent keys are none). -/
structure DealPatch where
  name : Option String := none
  client : Option String := none
  value : Option Int := none
  expenses : Option Int := none
  stage : Option String := none
  owner : Option String := none
  closeDate : Option String := none
  invoiceStatus : Option String := none
  amountCollected : Option Int := none
  buckets : Option (List Int) := none
  prob : Option Int := none
deriving Repr, DecidableEq

/-- `req.body[f] !== undefined` for the three financial field names. -/
def hasDealField (b : DealPatch) : String → Bool
  | "value" => b.value.isSome
  | "buckets" => b.buckets.isSome
  | "prob" => b.prob.isSome
  | _ => false

/-- `FINANCIAL_FIELDS.filter(f => req.body[f] !== undefined)`. -/
def attemptedFinancial (b : DealPatch) : List String :=
  FINANCIAL_FIELDS.filter (hasDealField b)

/-- The row object dealToRow builds in partial mode: a key is present exactly
when the body key is, with the same falsiness coercions as the source
(`closeDate || null`, `invoiceStatus || 'none'`; `|| 0` and `|| []` are the
identity on Int and on a present List). -/
structure DealRow where
  name : Option String := none
  client : Option String := none
  value : Option Int := none
  expenses : Option Int := none
  stage : Option String := none
  owner : Option String := none
  close_date : Option (Option String) := none
  invoice_status : Option String := none
  amount_collected : Option Int := none
  buckets : Option (List Int) := none
  prob : Option Int := none
deriving Repr, DecidableEq

/-- dealToRow with partial = true. -/
def dealToRow (b : DealPatch) : DealRow :=
  { name := b.name, client := b.client, value := b.value,
    expenses := b.expenses, stage := b.stage, owner := b.owner,
    close_date := b.closeDate.map (fun s => if s = "" then none else some s),
    invoice_status := b.invoiceStatus.map (fun s => jsOrStr s "none"),
    amount_collected := b.amountCollected, buckets := b.buckets,
    prob := b.prob }

/-- `supabase.from('deals').update(row)`: present row columns overwrite. -/
def applyDealRow (d : Deal) (r : DealRow) : Deal :=
  { d with
    name := r.name.getD d.name,
    client := r.client.getD d.client,
    value := r.value.getD d.value,
    expenses := r.expenses.getD d.expenses,
    stage := r.stage.getD d.stage,
    owner := r.owner.getD d.owner,
    close_date := r.close_date.getD d.close_date,
    invoice_status := r.invoice_status.getD d.invoice_status,
    amount_collected := r.amount_collected.getD d.amount_collected,
    buckets := r.buckets.getD d.buckets,
    prob := r.prob.getD d.prob }

/-- `Object.keys(row)` in dealToRow insertion order. -/
def dealRowKeys (r : DealRow) : List String :=
  (if r.name.isSome then ["name"] else []) ++
  (if r.client.isSome then ["client"] else []) ++
  (if r.value.isSome then ["value"] else []) ++
  (if r.expenses.isSome then ["expenses"] else []) ++
  (if r.stage.isSome then ["stage"] else []) ++
  (if r.owner.isSome then ["owner"] else []) ++
  (if r.close_date.isSome then ["close_date"] else []) ++
  (if r.invoice_status.isSome then ["invoice_status"] else []) ++
  (if r.amount_collected.isSome then ["amount_collected"] else []) ++
  (if r.buckets.isSome then ["buckets"] else []) ++
  (if r.prob.isSome then ["prob"] else [])

/-- Column access for the serialize-and-compare diff. -/
def dealField (d : Deal) : String → FieldVal
  | "name" => .str d.name
  | "client" => .str d.client
  | "value" => .int d.value
  | "expenses" => .int d.expenses
  | "stage" => .str d.stage
  | "owner" => .str d.owner
  | "close_date" => .ostr d.close_date
  | "invoice_status" => .str d.invoice_status
  | "amount_collected" => .int d.amount_collected
  | "buckets" => .ilist d.buckets
  | "prob" => .int d.prob
  | _ => .str ""

/-- The per-field diff the deal PATCH handler records under EDIT_DEAL. -/
def dealDiff (r : DealRow) (old upd : Deal) : List (String × FieldVal × FieldVal) :=
  (dealRowKeys r).filterMap fun k =>
    if dealField old k ≠ dealField upd k then some (k, dealField old k, dealField upd k)
    else none

/-- PATCH /api/deals/:id (requireAuth + requireAdmin are upstream middleware;
`user` is the authenticated admin).  `insertOk` is the audit store outcome. -/
def patchDeal (db : DB) (insertOk : Bool) (user : Actor) (id : String)
    (b : DealPatch) : Resp × DB :=
  match findDeal db id with
  | none => ({ status := 500, body := .err "deal not found" }, db)
  | some current =>
    if current.invoice_status = "paid" ∧ attemptedFinancial b ≠ [] then
      let audit := auditLog insertOk db.audit (some user) "BLOCKED_EDIT_PAID_DEAL"
        "deals" id (.blockedPaidDeal (attemptedFinancial b) "deal is paid")
      ({ status := 403,
         body := .err "Deal is marked Paid — financial fields (value, buckets) are locked. Change invoice status first." },
       { db with audit := audit })
    else
      let row := dealToRow b
      let updated := applyDealRow current row
      let deals := db.deals.map fun d => if d.id = id then updated else d
      let diffs := dealDiff row current updated
      let audit :=
        if diffs ≠ [] then
          auditLog insertOk db.audit (some user) "EDIT_DEAL" "deals" id (.editDeal diffs)
        else db.audit
      ({ status := 200, body := .dealJ (mapDeal updated) },
       { db with deals := deals, audit := audit })

/-- PATCH /api/tasks/:id request body. -/
structure TaskPatch where
  title : Option String := none
  projectId : Option String := none
  assigneeId : Option String := none
  dueDate : Option String := none
  priority : Option String := none
  status : Option String := none
  estHours : Option Int := none
deriving Repr, DecidableEq

/-- The nested lock check of the task PATCH handler: the task is found, has a
project, the project is found and complete, references a deal, and that deal
is locked (getLockedDeal returns it). -/
def taskHoursLockedB (db : DB) (taskId : String) : Bool :=
  match findTask db taskId with
  | some t =>
    match t.project_id with
    | some pid =>
      match findProject db pid with
      | some proj =>
        if proj.status = "complete" then
          match proj.deal_id with
          | some did => (getLockedDeal db did).isSome
          | none => false
        else false
      | none => false
    | none => false
  | none => false

/-- The `updates` object of the task PATCH handler applied to the row. -/
def applyTaskUpdates (t : Task) (b : TaskPatch) : Task :=
  { t with
    title := b.title.getD t.title,
    project_id := match b.projectId with | some p => some p | none => t.project_id,
    assignee_id := match b.assigneeId with | some a => some a | none => t.assignee_id,
    due_date := match b.dueDate with | some d => some d | none => t.due_date,
    priority := b.priority.getD t.priority,
    status := b.status.getD t.status,
    est_hours := b.estHours.getD t.est_hours }

/-- PATCH /api/tasks/:id (requireAuth upstream). -/
def patchTask (db : DB) (insertOk : Bool) (user : Actor) (id : String)
    (b : TaskPatch) : Resp × DB :=
  if b.estHours.isSome ∧ taskHoursLockedB db id then
    let audit := auditLog insertOk db.audit (some user) "BLOCKED_EDIT_TASK_HOURS"
      "tasks" id (.blockedTaskHours (b.estHours.getD 0) "project complete + deal paid")
    ({ status := 403,
       body := .err "Task hours are locked — project is complete and deal is paid." },
     { db with audit := audit })
  else
    match findTask db id with
    | none => ({ status := 500, body := .err "task not found" }, db)
    | some t =>
      let updated := applyTaskUpdates t b
      let tasks := db.tasks.map fun x => if x.id = id then updated else x
      ({ status := 200, body := .taskJ (mapTask updated) }, { db with tasks := tasks })

/-- PATCH /api/team/:id request body. -/
structure TeamPatch where
  name : Option String := none
  role : Option String := none
  profitSharePct : Option Int := none
  active : Option Bool := none
  authRole : Option String := none
  pin : Option String := none
deriving Repr, DecidableEq

/-- POST /api/team request body. -/
structure TeamCreateBody where
  name : String
  role : Option String := none
  profitSharePct : Option Int := none
  active : Option Bool := none
  color : Option String := none
  pin : Option String := none
deriving Repr, DecidableEq

/-- The valid auth roles accepted by the team PATCH handler. -/
def validRoles : List String := ["admin", "class_a", "class_b", "va"]

/-- The self-demotion guard condition:
`req.params.id === req.user.sub && req.body.authRole && req.body.authRole !== 'admin'`
(a present empty-string authRole is falsy and skips the guard). -/
def selfDemotionB (user : Actor) (id : String) (b : TeamPatch) : Bool :=
  decide (id = user.sub) &&
    (match b.authRole with
     | some r => decide (r ≠ "") && decide (r ≠ "admin")
     | none => false)

/-- `authRole` present but not in validRoles (checked while building updates). -/
def invalidRoleB (b : TeamPatch) : Bool :=
  match b.authRole with
  | some r => decide (r ∉ validRoles)
  | none => false

/-- Stand-in for `bcrypt.hash(String(pin), 10)`; the claims never inspect the
hash beyond equality, so any injective encoding of the PIN is faithful. -/
def pinHash (pin : String) : String := "bcrypt:" ++ pin

/-- The `updates` object of the team PATCH handler applied to the row
(`color` is not updatable here; `pin` only re-hashes when truthy; `auth_role`
is only reached when valid). -/
def applyTeamUpdates (m : TeamMember) (b : TeamPatch) : TeamMember :=
  { m with
    name := b.name.getD m.name,
    role := b.role.getD m.role,
    profit_share_pct := b.profitSharePct.getD m.profit_share_pct,
    active := b.active.getD m.active,
    auth_role := b.authRole.getD m.auth_role,
    pin_hash := match b.pin with
      | some p => if p ≠ "" then pinHash p else m.pin_hash
      | none => m.pin_hash }

/-- The profit-share guard block of the team PATCH handler: when the body has
a profitSharePct differing from the stored value and the member has a paid
profit share, it short-circuits with a 403 and a BLOCKED_PS_PCT_CHANGE audit
row; otherwise control falls through (none). -/
def psGuard (db : DB) (insertOk : Bool) (user : Actor) (id : String)
    (b : TeamPatch) : Option (Resp × DB) :=
  match b.profitSharePct with
  | some newPct =>
    match findMember db id with
    | some current =>
      if current.profit_share_pct ≠ newPct then
        if isProfitSharePaid db id then
          let audit := auditLog insertOk db.audit (some user) "BLOCKED_PS_PCT_CHANGE"
            "team_members" id
            (.blockedPsPct current.profit_share_pct newPct "profit share already paid out")
          some ({ status := 403,
                  body := .err (current.name ++ "\x27s profit share % is locked — they have a paid profit share distribution. Unmark it as paid first.") },
                { db with audit := audit })
        else none
      else none
    | none => none
  | none => none

/-- PATCH /api/team/:id (requireAuth + requireAdmin upstream). -/
def patchTeam (db : DB) (insertOk : Bool) (user : Actor) (id : String)
    (b : TeamPatch) : Resp × DB :=
  if selfDemotionB user id b then
    ({ status := 400, body := .err "You cannot remove your own admin access" }, db)
  else
    match psGuard db insertOk user id b with
    | some r => r
    | none =>
      if invalidRoleB b then
        ({ status := 400, body := .err "Invalid role" }, db)
      else
        match findMember db id with
        | none => ({ status := 500, body := .err "member not found" }, db)
        | some current =>
          let updated := applyTeamUpdates current b
          let team := db.team.map fun m => if m.id = id then updated else m
          let audit :=
            if b.profitSharePct.isSome ∧
               current.profit_share_pct ≠ b.profitSharePct.getD current.profit_share_pct then
              auditLog insertOk db.audit (some user) "EDIT_TEAM_PS_PCT" "team_members" id
                (.editTeamPs updated.name current.profit_share_pct
                  (b.profitSharePct.getD 0))
            else db.audit
          ({ status := 200, body := .memberJ (mapTeamMember updated) },
           { db with team := team, audit := audit })

/-- DELETE /api/team/:id (requireAuth + requireAdmin upstream). -/
def deleteTeam (db : DB) (user : Actor) (id : String) : Resp × DB :=
  if id = user.sub then
    ({ status := 400, body := .err "You cannot remove yourself" }, db)
  else
    ({ status := 200, body := .ok },
     { db with team := db.team.filter fun m => decide (m.id ≠ id) })

/-- The row POST /api/team inserts: auth_role is hard-coded to "member",
`active: active !== false`, `color || '#c9a84c'`, `profitSharePct || 0`
(identity on Int), `role || ''`.  `newId` is the store-generated uuid. -/
def mkNewMember (newId : String) (b : TeamCreateBody) : TeamMember :=
  { id := newId, name := b.name,
    role := b.role.getD "",
    auth_role := "member",
    color := jsOrStr (b.color.getD "") "#c9a84c",
    profit_share_pct := b.profitSharePct.getD 0,
    active := decide (b.active ≠ some false),
    pin_hash := pinHash (b.pin.getD "") }

/-- POST /api/team (requireAuth + requireAdmin upstream). -/
def createTeam (db : DB) (newId : String) (b : TeamCreateBody) : Resp × DB :=
  if (match b.pin with | some p => decide (p ≠ "") | none => false) = false then
    ({ status := 400, body := .err "PIN is required for new members" }, db)
  else
    let m := mkNewMember newId b
    ({ status := 201, body := .memberJ (mapTeamMember m) },
     { db with team := db.team ++ [m] })

/-- DELETE /api/pay-log/:id (requireAuth + requireAdmin upstream).  An existing
non-manual entry is rejected with no audit row; otherwise (manual or missing)
a DELETE_PAY_LOG audit row is recorded with the optionally-chained member name
and amount, the delete runs, and the handler responds ok. -/
def deletePayLog (db : DB) (insertOk : Bool) (user : Actor) (id : String) : Resp × DB :=
  match findPayLog db id with
  | some e =>
    if e.is_manual = false then
      ({ status := 403,
         body := .err "Auto-generated pay log entries cannot be deleted. Unmark the payment as paid instead." },
       db)
    else
      let audit := auditLog insertOk db.audit (some user) "DELETE_PAY_LOG" "pay_log" id
        (.deletePayLogCh (some e.member_name) (some e.amount))
      ({ status := 200, body := .ok },
       { db with payLog := db.payLog.filter (fun x => decide (x.id ≠ id)), audit := audit })
  | none =>
    let audit := auditLog insertOk db.audit (some user) "DELETE_PAY_LOG" "pay_log" id
      (.deletePayLogCh none none)
    ({ status := 200, body := .ok },
     { db with payLog := db.payLog.filter (fun x => decide (x.id ≠ id)), audit := audit })

/-! ## Concrete fixtures used by the witnesses -/

/-- A concrete admin actor. -/
def adminUser : Actor := { sub := "root-1", name := "Root", role := "admin" }

/-- A concrete paid deal. -/
def dealD1 : Deal :=
  { id := "d1", name := "Site build", client := "Acme", value := 2000,
    expenses := 0, stage := "Closed Won", owner := "KH", close_date := none,
    invoice_status := "paid", amount_collected := 0, buckets := [600, 1400],
    prob := 100 }

/-- A database holding only the paid deal. -/
def dbDeals : DB :=
  { deals := [dealD1], projects := [], tasks := [], team := [],
    psStatus := [], payLog := [], audit := [] }

/-- A deal-update body touching a financial field. -/
def bodyFin : DealPatch := { value := some 3000 }

/-- A deal-update body touching only the invoice status. -/
def bodyUnlock : DealPatch := { invoiceStatus := some "sent" }

/-! ## Helper lemmas -/

/-- A payload with none of value, buckets, prob attempts no financial field. -/
theorem attemptedFinancial_eq_nil (b : DealPatch) (hv : b.value = none)
    (hbk : b.buckets = none) (hpr : b.prob = none) : attemptedFinancial b = [] := by
  simp [attemptedFinancial, FINANCIAL_FIELDS, hasDealField, hv, hbk, hpr]

/-! ## Claims -/

/-- C1: for a deal stored with invoice_status "paid", a PATCH body containing
any of value, buckets, prob is rejected with HTTP 403, the deals table is left
unchanged, and exactly one BLOCKED_EDIT_PAID_DEAL audit row naming the
attempted financial fields is appended. -/
theorem paidDeal_financial_update_blocked
    (db : DB) (user : Actor) (id : String) (b : DealPatch) (d : Deal)
    (hfind : findDeal db id = some d) (hpaid : d.invoice_status = "paid")
    (hatt : attemptedFinancial b ≠ []) :
    (patchDeal db true user id b).1.status = 403 ∧
    (patchDeal db true user id b).2.deals = db.deals ∧
    (patchDeal db true user id b).2.audit = db.audit ++
      [mkAuditEntry (some user) "BLOCKED_EDIT_PAID_DEAL" "deals" id
        (.blockedPaidDeal (attemptedFinancial b) "deal is paid")] := by
  simp only [patchDeal, hfind]
  rw [if_pos ⟨hpaid, hatt⟩]
  simp [auditLog]

/-- Witness for C1 on the concrete paid deal d1 and body with value 3000. -/
theorem paidDeal_financial_update_blocked_witness :
    (patchDeal dbDeals true adminUser "d1" bodyFin).1.status = 403 ∧
    (patchDeal dbDeals true adminUser "d1" bodyFin).2.deals = dbDeals.deals ∧
    (patchDeal dbDeals true adminUser "d1" bodyFin).2.audit = dbDeals.audit ++
      [mkAuditEntry (some adminUser) "BLOCKED_EDIT_PAID_DEAL" "deals" "d1"
        (.blockedPaidDeal (attemptedFinancial bodyFin) "deal is paid")] :=
  paidDeal_financial_update_blocked dbDeals adminUser "d1" bodyFin dealD1
    (by decide) (by decide) (by decide)

/-- C2: for a deal stored with invoice_status "paid", a PATCH body that has
invoiceStatus but none of value, buckets, prob succeeds with HTTP 200 and
the stored invoice status of that deal becomes the new value. -/
theorem paidDeal_invoiceStatus_update_allowed
    (db : DB) (user : Actor) (id : String) (b : DealPatch) (d : Deal) (s : String)
    (hfind : findDeal db id = some d) (hpaid : d.invoice_status = "paid")
    (hv : b.value = none) (hbk : b.buckets = none) (hpr : b.prob = none)
    (hs : b.invoiceStatus = some s) (hs0 : s ≠ "") :
    (patchDeal db true user id b).1.status = 200 ∧
    (∃ x ∈ (patchDeal db true user id b).2.deals, x.id = id) ∧
    (∀ x ∈ (patchDeal db true user id b).2.deals, x.id = id → x.invoice_status = s) := by
  have hnil := attemptedFinancial_eq_nil b hv hbk hpr
  have hfind' : db.deals.find? (fun x => decide (x.id = id)) = some d := hfind
  have hid : d.id = id := by
    have hpd := List.find?_some hfind'
    simpa using hpd
  have hmem : d ∈ db.deals := List.mem_of_find?_eq_some hfind'
  simp only [patchDeal, hfind]
  rw [if_neg (by simp [hnil])]
  refine ⟨rfl, ?_, ?_⟩
  · exact ⟨applyDealRow d (dealToRow b),
      List.mem_map.mpr ⟨d, hmem, by simp [hid]⟩,
      by simp [applyDealRow, hid]⟩
  · intro x hx hxid
    obtain ⟨a, ha, rfl⟩ := List.mem_map.mp hx
    by_cases hc : a.id = id
    · rw [if_pos hc]
      simp [applyDealRow, dealToRow, hs, jsOrStr, hs0]
    · rw [if_neg hc] at hxid
      exact absurd hxid hc

/-- Witness for C2: unlocking the concrete paid deal d1 back to "sent". -/
theorem paidDeal_invoiceStatus_update_allowed_witness :
    (patchDeal dbDeals true adminUser "d1" bodyUnlock).1.status = 200 ∧
    (∃ x ∈ (patchDeal dbDeals true adminUser "d1" bodyUnlock).2.deals, x.id = "d1") ∧
    (∀ x ∈ (patchDeal dbDeals true adminUser "d1" bodyUnlock).2.deals,
      x.id = "d1" → x.invoice_status = "sent") :=
  paidDeal_invoiceStatus_update_allowed dbDeals adminUser "d1" bodyUnlock dealD1 "sent"
    (by decide) (by decide) (by decide) (by decide) (by decide) (by decide) (by decide)

/-- A concrete team member with a paid profit-share distribution. -/
def memberM1 : TeamMember :=
  { id := "m1", name := "Rae", role := "Design", auth_role := "class_a",
    color := "#123456", profit_share_pct := 30, active := true,
    pin_hash := "bcrypt:1111" }

/-- A paid profit-share row for m1. -/
def psPaidRow : PSRow := { quarter_key := "Q1-2025", member_id := "m1", paid := true }

/-- A database holding member m1 and the paid profit-share row. -/
def dbTeam : DB :=
  { deals := [], projects := [], tasks := [], team := [memberM1],
    psStatus := [psPaidRow], payLog := [], audit := [] }

/-- A team-update body changing the locked percentage. -/
def bodyPct : TeamPatch := { profitSharePct := some 40 }

/-- A team-update body with both an invalid role and a locked pct change. -/
def bodyBoth : TeamPatch := { profitSharePct := some 40, authRole := some "bogus" }

/-- A team-update body demoting to va. -/
def bodyDemote : TeamPatch := { authRole := some "va" }

/-- The member m1 acting on themselves. -/
def userSelf : Actor := { sub := "m1", name := "Rae", role := "admin" }

/-- If the profit-share guard short-circuits, the response is the 403 lock
rejection and the team table is untouched. -/
theorem psGuard_some_spec (db : DB) (ok : Bool) (user : Actor) (id : String)
    (b : TeamPatch) (r : Resp × DB) (h : psGuard db ok user id b = some r) :
    r.1.status = 403 ∧ r.2.team = db.team := by
  unfold psGuard at h
  repeat' split at h
  all_goals cases h
  exact ⟨rfl, rfl⟩

/-- C3: a member with a paid profit-share row cannot have profitSharePct
changed (403, message prefixed by the member name, no team write, one
BLOCKED_PS_PCT_CHANGE audit row with from/to/reason), while a name-only
update succeeds despite the lock. -/
theorem lockedMember_pct_change_blocked
    (db : DB) (user : Actor) (id : String) (m : TeamMember)
    (hfind : findMember db id = some m) (hlock : isProfitSharePaid db id = true) :
    (∀ (b : TeamPatch) (p : Int), b.profitSharePct = some p →
       p ≠ m.profit_share_pct → selfDemotionB user id b = false →
       (patchTeam db true user id b).1.status = 403 ∧
       (patchTeam db true user id b).1.body =
         .err (m.name ++ "\x27s profit share % is locked — they have a paid profit share distribution. Unmark it as paid first.") ∧
       (patchTeam db true user id b).2.team = db.team ∧
       (patchTeam db true user id b).2.audit = db.audit ++
         [mkAuditEntry (some user) "BLOCKED_PS_PCT_CHANGE" "team_members" id
           (.blockedPsPct m.profit_share_pct p "profit share already paid out")]) ∧
    (∀ n : String,
       (patchTeam db true user id { name := some n }).1.status = 200 ∧
       (patchTeam db true user id { name := some n }).2.team =
         db.team.map (fun x => if x.id = id then { m with name := n } else x)) := by
  constructor
  · intro b p hp hne hsd
    have hne' : m.profit_share_pct ≠ p := Ne.symm hne
    have hguard : psGuard db true user id b =
        some ({ status := 403,
                body := .err (m.name ++ "\x27s profit share % is locked — they have a paid profit share distribution. Unmark it as paid first.") },
              { db with audit := db.audit ++
                 [mkAuditEntry (some user) "BLOCKED_PS_PCT_CHANGE" "team_members" id
                   (.blockedPsPct m.profit_share_pct p "profit share already paid out")] }) := by
      simp [psGuard, hp, hfind, hne', hlock, auditLog]
    simp [patchTeam, hsd, hguard]
  · intro n
    have hsd2 : selfDemotionB user id ({ name := some n } : TeamPatch) = false := by
      simp [selfDemotionB]
    have happ : applyTeamUpdates m { name := some n } = { m with name := n } := rfl
    simp [patchTeam, hsd2, psGuard, invalidRoleB, hfind, happ]

/-- Witness for C3 on member m1 with a paid Q1-2025 profit share. -/
theorem lockedMember_pct_change_blocked_witness :
    ((patchTeam dbTeam true adminUser "m1" bodyPct).1.status = 403 ∧
     (patchTeam dbTeam true adminUser "m1" bodyPct).1.body =
       .err (memberM1.name ++ "\x27s profit share % is locked — they have a paid profit share distribution. Unmark it as paid first.") ∧
     (patchTeam dbTeam true adminUser "m1" bodyPct).2.team = dbTeam.team ∧
     (patchTeam dbTeam true adminUser "m1" bodyPct).2.audit = dbTeam.audit ++
       [mkAuditEntry (some adminUser) "BLOCKED_PS_PCT_CHANGE" "team_members" "m1"
         (.blockedPsPct memberM1.profit_share_pct 40 "profit share already paid out")]) ∧
    ((patchTeam dbTeam true adminUser "m1" { name := some "Ray" }).1.status = 200 ∧
     (patchTeam dbTeam true adminUser "m1" { name := some "Ray" }).2.team =
       dbTeam.team.map (fun x => if x.id = "m1" then { memberM1 with name := "Ray" } else x)) := by
  have h := lockedMember_pct_change_blocked dbTeam adminUser "m1" memberM1
    (by decide) (by decide)
  exact ⟨h.1 bodyPct 40 (by decide) (by decide) (by decide), h.2 "Ray"⟩

/-- C5 counterexample: on a locked member, a payload carrying both an invalid
authRole and a changed profitSharePct is rejected with the 403 profit-share
lock error, not the 400 Invalid role validation error the claim requires. -/
theorem invalidRole_vs_psLock_counterexample :
    (patchTeam dbTeam true adminUser "m1" bodyBoth).1.status = 403 ∧
    (patchTeam dbTeam true adminUser "m1" bodyBoth).1.status ≠ 400 ∧
    (patchTeam dbTeam true adminUser "m1" bodyBoth).1.body ≠ .err "Invalid role" := by
  decide

/-- C5 amended: the profit-share guard runs before the role-validity check,
so a payload with both an invalid authRole and a locked profitSharePct change
rejects with the 403 ProfitShareLocked error, not InvalidRole. -/
theorem psLock_checked_before_invalidRole
    (db : DB) (user : Actor) (id : String) (m : TeamMember) (b : TeamPatch)
    (p : Int) (r : String)
    (hfind : findMember db id = some m) (hlock : isProfitSharePaid db id = true)
    (hp : b.profitSharePct = some p) (hne : p ≠ m.profit_share_pct)
    (hr : b.authRole = some r) (hinv : r ∉ validRoles) (hself : id ≠ user.sub) :
    (patchTeam db true user id b).1.status = 403 ∧
    (patchTeam db true user id b).1.body =
      .err (m.name ++ "\x27s profit share % is locked — they have a paid profit share distribution. Unmark it as paid first.") := by
  have hsd : selfDemotionB user id b = false := by
    simp [selfDemotionB, hself]
  have hne' : m.profit_share_pct ≠ p := Ne.symm hne
  have hguard : psGuard db true user id b =
      some ({ status := 403,
              body := .err (m.name ++ "\x27s profit share % is locked — they have a paid profit share distribution. Unmark it as paid first.") },
            { db with audit := db.audit ++
               [mkAuditEntry (some user) "BLOCKED_PS_PCT_CHANGE" "team_members" id
                 (.blockedPsPct m.profit_share_pct p "profit share already paid out")] }) := by
    simp [psGuard, hp, hfind, hne', hlock, auditLog]
  simp [patchTeam, hsd, hguard]

/-- Witness for the amended C5 on the concrete locked member. -/
theorem psLock_checked_before_invalidRole_witness :
    (patchTeam dbTeam true adminUser "m1" bodyBoth).1.status = 403 ∧
    (patchTeam dbTeam true adminUser "m1" bodyBoth).1.body =
      .err (memberM1.name ++ "\x27s profit share % is locked — they have a paid profit share distribution. Unmark it as paid first.") :=
  psLock_checked_before_invalidRole dbTeam adminUser "m1" memberM1 bodyBoth 40 "bogus"
    (by decide) (by decide) (by decide) (by decide) (by decide) (by decide) (by decide)

/-- C6 counterexample: self-demotion and self-deletion are rejected with HTTP
400, not the 403 the claim states. -/
theorem selfDemotion_status_counterexample :
    (patchTeam dbTeam true userSelf "m1" bodyDemote).1.status = 400 ∧
    (patchTeam dbTeam true userSelf "m1" bodyDemote).1.status ≠ 403 ∧
    (deleteTeam dbTeam userSelf "m1").1.status = 400 ∧
    (deleteTeam dbTeam userSelf "m1").1.status ≠ 403 := by
  decide

/-- C6 amended: a self-demotion update (target id equals the acting user and
authRole present, truthy and not admin) and a self-deletion both reject with
HTTP 400 and perform no write at all. -/
theorem self_demote_and_delete_rejected
    (db : DB) (ok : Bool) (user : Actor) (id : String) (b : TeamPatch) (r : String)
    (hid : id = user.sub) (hr : b.authRole = some r) (hr0 : r ≠ "") (hra : r ≠ "admin") :
    (patchTeam db ok user id b).1.status = 400 ∧
    (patchTeam db ok user id b).2 = db ∧
    (deleteTeam db user id).1.status = 400 ∧
    (deleteTeam db user id).2 = db := by
  subst hid
  have hsd : selfDemotionB user user.sub b = true := by
    simp [selfDemotionB, hr, hr0, hra]
  simp [patchTeam, hsd, deleteTeam]

/-- Witness for the amended C6 on the concrete member acting on themselves. -/
theorem self_demote_and_delete_rejected_witness :
    (patchTeam dbTeam true userSelf "m1" bodyDemote).1.status = 400 ∧
    (patchTeam dbTeam true userSelf "m1" bodyDemote).2 = dbTeam ∧
    (deleteTeam dbTeam userSelf "m1").1.status = 400 ∧
    (deleteTeam dbTeam userSelf "m1").2 = dbTeam :=
  self_demote_and_delete_rejected dbTeam true userSelf "m1" bodyDemote "va"
    (by decide) (by decide) (by decide) (by decide)

/-- C10: every created team member is stored with auth_role "member"; that
value is outside validRoles, so a team update carrying authRole "member"
never succeeds and never writes the team table. -/
theorem created_member_role_unassignable
    (newId : String) (b : TeamCreateBody) (q : String)
    (hpin : b.pin = some q) (hq0 : q ≠ "") :
    (∀ db : DB, (createTeam db newId b).1.status = 201 ∧
       (createTeam db newId b).2.team = db.team ++ [mkNewMember newId b]) ∧
    (mkNewMember newId b).auth_role = "member" ∧
    "member" ∉ validRoles ∧
    (∀ (db : DB) (ok : Bool) (user : Actor) (id : String) (b2 : TeamPatch),
       b2.authRole = some "member" →
       (patchTeam db ok user id b2).1.status ≠ 200 ∧
       (patchTeam db ok user id b2).2.team = db.team) := by
  refine ⟨?_, rfl, by decide, ?_⟩
  · intro db
    simp [createTeam, hpin, hq0]
  · intro db ok user id b2 hr
    by_cases hsd : selfDemotionB user id b2 = true
    · simp [patchTeam, hsd]
    · have hsd' : selfDemotionB user id b2 = false := by
        simpa using hsd
      cases hg : psGuard db ok user id b2 with
      | some rr =>
        obtain ⟨h403, hteam⟩ := psGuard_some_spec db ok user id b2 rr hg
        constructor
        · simp [patchTeam, hsd', hg, h403]
        · simp [patchTeam, hsd', hg, hteam]
      | none =>
        have hinv : invalidRoleB b2 = true := by
          simp only [invalidRoleB, hr]
          decide
        simp [patchTeam, hsd', hg, hinv]

/-- A concrete create body with a PIN. -/
def newBody : TeamCreateBody := { name := "New Member", pin := some "1234" }

/-- Witness for C10 on a concrete create and a concrete blocked update. -/
theorem created_member_role_unassignable_witness :
    ((createTeam dbTeam "m9" newBody).1.status = 201 ∧
     (createTeam dbTeam "m9" newBody).2.team = dbTeam.team ++ [mkNewMember "m9" newBody]) ∧
    (mkNewMember "m9" newBody).auth_role = "member" ∧
    "member" ∉ validRoles ∧
    ((patchTeam dbTeam true adminUser "m1" { authRole := some "member" }).1.status ≠ 200 ∧
     (patchTeam dbTeam true adminUser "m1" { authRole := some "member" }).2.team = dbTeam.team) := by
  have h := created_member_role_unassignable "m9" newBody "1234" (by decide) (by decide)
  exact ⟨h.1 dbTeam, h.2.1, h.2.2.1, h.2.2.2 dbTeam true adminUser "m1" _ rfl⟩

/-- The lock condition of C4, spelled over the entity graph: the task's
project exists, is complete, references a deal, and that deal is paid. -/
def taskLockCond (db : DB) (t : Task) : Prop :=
  ∃ pid proj did deal,
    t.project_id = some pid ∧ findProject db pid = some proj ∧
    proj.status = "complete" ∧ proj.deal_id = some did ∧
    findDeal db did = some deal ∧ deal.invoice_status = "paid"

/-- The handler's nested Boolean lock check agrees with the entity-graph
condition whenever the task resolves. -/
theorem taskHoursLockedB_iff (db : DB) (id : String) (t : Task)
    (hfind : findTask db id = some t) :
    taskHoursLockedB db id = true ↔ taskLockCond db t := by
  rw [taskHoursLockedB, hfind]
  cases hp : t.project_id with
  | none => simp [taskLockCond, hp]
  | some pid =>
    cases hproj : findProject db pid with
    | none => simp [taskLockCond, hp, hproj]
    | some proj =>
      by_cases hst : proj.status = "complete"
      · cases hd : proj.deal_id with
        | none => simp [taskLockCond, hp, hproj, hst, hd]
        | some did =>
          cases hdl : findDeal db did with
          | none => simp [taskLockCond, getLockedDeal, hp, hproj, hst, hd, hdl]
          | some deal =>
            by_cases hpaid : deal.invoice_status = "paid"
            · simp [taskLockCond, getLockedDeal, hp, hproj, hst, hd, hdl, hpaid]
            · simp [taskLockCond, getLockedDeal, hp, hproj, hst, hd, hdl, hpaid]
      · simp [taskLockCond, hp, hproj, hst]

/-- C4: for an existing task, an update carrying estHours is rejected with
403 and one BLOCKED_EDIT_TASK_HOURS audit row recording the attempted value
exactly when the task's project is complete and references a paid deal, and
writes nothing in that case; an update without estHours always succeeds. -/
theorem taskHours_locked_iff
    (db : DB) (user : Actor) (id : String) (t : Task)
    (hfind : findTask db id = some t) :
    (∀ (b : TaskPatch) (h : Int), b.estHours = some h →
       (((patchTask db true user id b).1.status = 403) ↔ taskLockCond db t) ∧
       (taskLockCond db t →
          (patchTask db true user id b).2.tasks = db.tasks ∧
          (patchTask db true user id b).2.audit = db.audit ++
            [mkAuditEntry (some user) "BLOCKED_EDIT_TASK_HOURS" "tasks" id
              (.blockedTaskHours h "project complete + deal paid")]) ∧
       (¬ taskLockCond db t → (patchTask db true user id b).1.status = 200)) ∧
    (∀ b : TaskPatch, b.estHours = none →
       (patchTask db true user id b).1.status = 200) := by
  constructor
  · intro b h hb
    by_cases hl : taskHoursLockedB db id = true
    · have hcond := (taskHoursLockedB_iff db id t hfind).mp hl
      refine ⟨?_, ?_, ?_⟩
      · simp [patchTask, hb, hl, auditLog, hcond]
      · intro _
        simp [patchTask, hb, hl, auditLog]
      · intro hnot
        exact absurd hcond hnot
    · have hcond := fun hc => hl ((taskHoursLockedB_iff db id t hfind).mpr hc)
      have hl' : taskHoursLockedB db id = false := by simpa using hl
      refine ⟨?_, ?_, ?_⟩
      · simp only [patchTask, hl']
        simp [hfind]
        intro hc
        exact absurd hc hcond
      · intro hc
        exact absurd hc hcond
      · intro _
        simp [patchTask, hl', hfind]
  · intro b hb
    simp [patchTask, hb, hfind]

/-- A complete project whose deal is the paid d1. -/
def projP1 : Project :=
  { id := "p1", name := "Build", client := "Acme", deal_id := some "d1",
    start_date := none, end_date := none, status := "complete", archived := false }

/-- A task in project p1. -/
def taskT1 : Task :=
  { id := "t1", title := "Design pass", project_id := some "p1",
    assignee_id := none, due_date := none, priority := "med",
    status := "doing", est_hours := 8 }

/-- A database wiring task t1 to complete project p1 and paid deal d1. -/
def dbTasks : DB :=
  { deals := [dealD1], projects := [projP1], tasks := [taskT1], team := [],
    psStatus := [], payLog := [], audit := [] }

/-- A task-update body touching estHours. -/
def bodyHours : TaskPatch := { estHours := some 12 }

/-- A task-update body touching only status. -/
def bodyStatus : TaskPatch := { status := some "done" }

/-- Witness for C4 on the concrete locked task t1. -/
theorem taskHours_locked_iff_witness :
    ((((patchTask dbTasks true adminUser "t1" bodyHours).1.status = 403) ↔
        taskLockCond dbTasks taskT1) ∧
     (taskLockCond dbTasks taskT1 →
        (patchTask dbTasks true adminUser "t1" bodyHours).2.tasks = dbTasks.tasks ∧
        (patchTask dbTasks true adminUser "t1" bodyHours).2.audit = dbTasks.audit ++
          [mkAuditEntry (some adminUser) "BLOCKED_EDIT_TASK_HOURS" "tasks" "t1"
            (.blockedTaskHours 12 "project complete + deal paid")]) ∧
     (¬ taskLockCond dbTasks taskT1 →
        (patchTask dbTasks true adminUser "t1" bodyHours).1.status = 200)) ∧
    (patchTask dbTasks true adminUser "t1" bodyStatus).1.status = 200 := by
  have h := taskHours_locked_iff dbTasks adminUser "t1" taskT1 (by decide)
  exact ⟨h.1 bodyHours 12 rfl, h.2 bodyStatus rfl⟩

/-- A concrete auto-generated pay log entry. -/
def payAuto : PayLogEntry :=
  { id := "pl1", member_id := "m1", member_name := some "Rae",
    pay_type := "production", amount := 500, is_manual := false }

/-- A concrete manual pay log entry. -/
def payManual : PayLogEntry :=
  { id := "pl2", member_id := "m1", member_name := some "Rae",
    pay_type := "bonus", amount := 250, is_manual := true }

/-- A database holding both pay log entries. -/
def dbPay : DB :=
  { deals := [], projects := [], tasks := [], team := [],
    psStatus := [], payLog := [payAuto, payManual], audit := [] }

/-- C7: deleting an existing auto-generated (is_manual = false) pay log entry
returns 403 and changes nothing; deleting an existing manual entry removes
every row with that id, answers ok, and records one DELETE_PAY_LOG audit row
with the entry member name and amount. -/
theorem payLog_delete_manual_only
    (db : DB) (user : Actor) (id : String) (e : PayLogEntry)
    (hfind : findPayLog db id = some e) :
    (e.is_manual = false →
       (deletePayLog db true user id).1.status = 403 ∧
       (deletePayLog db true user id).2 = db) ∧
    (e.is_manual = true →
       (deletePayLog db true user id).1.status = 200 ∧
       (deletePayLog db true user id).1.body = .ok ∧
       (∀ x ∈ (deletePayLog db true user id).2.payLog, x.id ≠ id) ∧
       (deletePayLog db true user id).2.audit = db.audit ++
         [mkAuditEntry (some user) "DELETE_PAY_LOG" "pay_log" id
           (.deletePayLogCh (some e.member_name) (some e.amount))]) := by
  constructor
  · intro hm
    simp [deletePayLog, hfind, hm]
  · intro hm
    have hred : deletePayLog db true user id =
        ({ status := 200, body := .ok },
         { db with payLog := db.payLog.filter (fun x => decide (x.id ≠ id)),
                   audit := db.audit ++
                     [mkAuditEntry (some user) "DELETE_PAY_LOG" "pay_log" id
                       (.deletePayLogCh (some e.member_name) (some e.amount))] }) := by
      simp [deletePayLog, hfind, hm, auditLog]
    refine ⟨by rw [hred], by rw [hred], ?_, by rw [hred]⟩
    rw [hred]
    intro x hx
    have hx' := List.mem_filter.mp hx
    exact of_decide_eq_true hx'.2

/-- Witness for C7 on the concrete auto and manual entries. -/
theorem payLog_delete_manual_only_witness :
    ((deletePayLog dbPay true adminUser "pl1").1.status = 403 ∧
     (deletePayLog dbPay true adminUser "pl1").2 = dbPay) ∧
    ((deletePayLog dbPay true adminUser "pl2").1.status = 200 ∧
     (deletePayLog dbPay true adminUser "pl2").1.body = .ok ∧
     (∀ x ∈ (deletePayLog dbPay true adminUser "pl2").2.payLog, x.id ≠ "pl2") ∧
     (deletePayLog dbPay true adminUser "pl2").2.audit = dbPay.audit ++
       [mkAuditEntry (some adminUser) "DELETE_PAY_LOG" "pay_log" "pl2"
         (.deletePayLogCh (some payManual.member_name) (some payManual.amount))]) :=
  ⟨(payLog_delete_manual_only dbPay adminUser "pl1" payAuto (by decide)).1 rfl,
   (payLog_delete_manual_only dbPay adminUser "pl2" payManual (by decide)).2 rfl⟩

/-- C9: deleting a pay log id that matches no entry still succeeds with 200
and ok, removes nothing, and records one DELETE_PAY_LOG audit row whose
member and amount keys are absent. -/
theorem payLog_delete_missing_succeeds
    (db : DB) (user : Actor) (id : String)
    (hfind : findPayLog db id = none) :
    (deletePayLog db true user id).1.status = 200 ∧
    (deletePayLog db true user id).1.body = .ok ∧
    (deletePayLog db true user id).2.payLog = db.payLog ∧
    (deletePayLog db true user id).2.audit = db.audit ++
      [mkAuditEntry (some user) "DELETE_PAY_LOG" "pay_log" id
        (.deletePayLogCh none none)] := by
  have hfind' : db.payLog.find? (fun e => decide (e.id = id)) = none := hfind
  have hall := List.find?_eq_none.mp hfind'
  have hfil : db.payLog.filter (fun x => decide (x.id ≠ id)) = db.payLog := by
    apply List.filter_eq_self.mpr
    intro a ha
    have hne : ¬ (a.id = id) := by simpa using hall a ha
    simpa using hne
  simp [deletePayLog, hfind, auditLog, hfil]
  intro a ha
  simpa using hall a ha

/-- Witness for C9 on an id absent from the concrete pay log. -/
theorem payLog_delete_missing_succeeds_witness :
    (deletePayLog dbPay true adminUser "pl9").1.status = 200 ∧
    (deletePayLog dbPay true adminUser "pl9").1.body = .ok ∧
    (deletePayLog dbPay true adminUser "pl9").2.payLog = dbPay.payLog ∧
    (deletePayLog dbPay true adminUser "pl9").2.audit = dbPay.audit ++
      [mkAuditEntry (some adminUser) "DELETE_PAY_LOG" "pay_log" "pl9"
        (.deletePayLogCh none none)] :=
  payLog_delete_missing_succeeds dbPay adminUser "pl9" (by decide)

/-- The response half of the profit-share guard does not depend on whether
the audit insert succeeds. -/
theorem psGuard_fst_eq (db : DB) (u : Actor) (id : String) (b : TeamPatch) :
    (psGuard db true u id b).map Prod.fst = (psGuard db false u id b).map Prod.fst := by
  unfold psGuard
  cases b.profitSharePct with
  | none => rfl
  | some p =>
    cases findMember db id with
    | none => rfl
    | some cur =>
      by_cases h1 : cur.profit_share_pct ≠ p
      · by_cases h2 : isProfitSharePaid db id = true
        · simp [h1, h2]
        · simp [h1, h2]
      · simp [h1]

/-- C8: the audit recorder never propagates failure.  Whatever the storage
outcome of the audit insert, each embedded mutation handler returns the same
HTTP response; and a missing or fully falsy actor falls back to actor_id null
and actor_name "unknown" in the recorded row.  (auditLog itself is a total
function of the insert outcome, so it completes without raising.) -/
theorem auditFailure_never_propagates :
    (∀ (db : DB) (u : Actor) (id : String) (b : DealPatch),
       (patchDeal db true u id b).1 = (patchDeal db false u id b).1) ∧
    (∀ (db : DB) (u : Actor) (id : String) (b : TaskPatch),
       (patchTask db true u id b).1 = (patchTask db false u id b).1) ∧
    (∀ (db : DB) (u : Actor) (id : String) (b : TeamPatch),
       (patchTeam db true u id b).1 = (patchTeam db false u id b).1) ∧
    (∀ (db : DB) (u : Actor) (id : String),
       (deletePayLog db true u id).1 = (deletePayLog db false u id).1) ∧
    (∀ (a tn rid : String) (c : AuditChanges),
       (mkAuditEntry none a tn rid c).actor_id = none ∧
       (mkAuditEntry none a tn rid c).actor_name = "unknown") ∧
    (∀ (rl a tn rid : String) (c : AuditChanges),
       (mkAuditEntry (some { sub := "", name := "", role := rl }) a tn rid c).actor_id = none ∧
       (mkAuditEntry (some { sub := "", name := "", role := rl }) a tn rid c).actor_name = "unknown") := by
  refine ⟨?_, ?_, ?_, ?_, ?_, ?_⟩
  · intro db u id b
    simp only [patchDeal]
    cases h : findDeal db id with
    | none => rfl
    | some cur =>
      by_cases hc : cur.invoice_status = "paid" ∧ attemptedFinancial b ≠ []
      · simp [hc]
      · simp [hc]
  · intro db u id b
    simp only [patchTask]
    by_cases hc : b.estHours.isSome = true ∧ taskHoursLockedB db id = true
    · simp [hc]
    · simp [hc]
  · intro db u id b
    simp only [patchTeam]
    by_cases hsd : selfDemotionB u id b = true
    · simp [hsd]
    · have hsd' : selfDemotionB u id b = false := by simpa using hsd
      simp only [hsd', Bool.false_eq_true, if_false]
      cases hg1 : psGuard db true u id b with
      | some r1 =>
        have hmap : (psGuard db false u id b).map Prod.fst = some r1.1 := by
          rw [← psGuard_fst_eq, hg1]
          rfl
        obtain ⟨r2, hg2, hfst⟩ : ∃ r2, psGuard db false u id b = some r2 ∧ r2.1 = r1.1 := by
          cases hg2 : psGuard db false u id b with
          | none => rw [hg2] at hmap; simp at hmap
          | some r2 =>
            rw [hg2] at hmap
            simp at hmap
            exact ⟨r2, rfl, hmap⟩
        simp [hg2, hfst]
      | none =>
        have hg2 : psGuard db false u id b = none := by
          have h := psGuard_fst_eq db u id b
          rw [hg1] at h
          cases hg2 : psGuard db false u id b with
          | none => rfl
          | some r2 => rw [hg2] at h; simp at h
        simp only [hg2]
        by_cases hiv : invalidRoleB b = true
        · simp [hiv]
        · cases hm : findMember db id <;> simp [hm, hiv]
  · intro db u id
    simp only [deletePayLog]
    cases h : findPayLog db id with
    | none => rfl
    | some e => by_cases hm : e.is_manual = false <;> simp [hm]
  · intro a tn rid c
    exact ⟨rfl, rfl⟩
  · intro rl a tn rid c
    exact ⟨rfl, rfl⟩

end CJA
